import Mathlib

/-!
Shallow embedding of `src/extensions/rocksdb-repos/FlowFileRepository.cpp`
(class `FlowFileRepository`): the flush cycle over the delete queue, the
recovery/pruning pass over the startup checkpoint, the retry wrapper, and
checkpoint initialization.

Modelling conventions:
* The rocksdb store is an association list `List (String × Bytes)`;
  a `MultiGet` read of a key fails (status not ok) when the key is absent
  or when an injected per-key fault `readFault` fires, matching the code's
  uniform treatment of every non-ok status.
* `FlowFileRecord` and its `DeSerialize` live in `FlowFileRecord.h`, which
  is not part of the sources here; deserialization is therefore an opaque
  parameter `deser : Bytes → Option FlowFileRecord`, and the record carries
  exactly the fields the repository code reads (connection uuid, optional
  resource claim, the stored-to-repository mark).
* Calls into the external content repository, and deliveries of records into
  connections, are recorded as traces in the state, so that ordering and
  frame properties are statements about those traces.
-/

namespace FlowFileRepo

/-- Serialized record bytes, as handed to `DeSerialize`. -/
abbrev Bytes := List Nat

/-- A resource claim as seen by the repository: the code only ever passes the
claim handle to the content repository and reads its content path.
Modelled from the spec: `ResourceClaim` is declared in headers outside the
given sources; per the spec it is "a reference to externally stored bytes",
identified here by its content path. -/
structure ResourceClaim where
  contentFullPath : String
deriving DecidableEq

/-- Modelled from the spec: `FlowFileRecord` (in the missing
`FlowFileRecord.h`) exposes to the repository its owning-queue identifier
(`getConnectionUuid`), its uuid, its optional resource claim
(`getResourceClaim`) and the `setStoredToRepository` mark; `deserialize`
is opaque and yields such a record or fails. -/
structure FlowFileRecord where
  uuid : String
  connectionUuid : String
  claim : Option ResourceClaim
  storedToRepository : Bool
deriving DecidableEq

/-- Embedding of `eventRead->getContentFullPath()`: the record's content path is the path
of its claim, empty when it has none (modelled from the spec's description of
the record as holding an optional content-claim reference). -/
def getContentFullPath (r : FlowFileRecord) : String :=
  match r.claim with
  | some c => c.contentFullPath
  | none => ""

/-- Embedding of `eventRead->setStoredToRepository(true)` before delivery. -/
def setStoredToRepository (r : FlowFileRecord) (b : Bool) : FlowFileRecord :=
  { r with storedToRepository := b }

/-- One observable call into the external content repository:
`content_repo_->removeIfOrphaned(claim)` (flush path) or
`content_repo_->remove(claim)` (recovery path). -/
inductive ContentCall where
  | removeIfOrphaned (c : ResourceClaim)
  | remove (c : ResourceClaim)
deriving DecidableEq

/-- One observable delivery `search->second->put(eventRead)` of a recovered
record into the connection whose uuid matched; the key records which store
entry the record was deserialized from. -/
structure Delivery where
  key : String
  connectionUuid : String
  record : FlowFileRecord
deriving DecidableEq

/-- The repository state the embedded operations act on: the live rocksdb
contents, the delete queue `keys_to_delete` (drained front first), and the
traces of content-repository calls and connection deliveries made so far. -/
structure RepoState where
  store : List (String × Bytes)
  keys_to_delete : List String
  contentCalls : List ContentCall
  deliveries : List Delivery
deriving DecidableEq

/-- Result of `ExecuteWithRetry`: whether it returned true, how many times it
invoked the operation, and the sleep durations performed in order. -/
structure RetryResult where
  success : Bool
  attempts : Nat
  sleeps : List Nat
deriving DecidableEq

/-- The retry loop body: `for (int i=0; i<3; ++i)` with
`waitTime += increment; sleep_for(waitTime)` after each failed attempt.
`operation n` is the outcome of the n-th invocation of the supplied
operation. -/
def retryGo (operation : Nat → Bool) (increment : Nat) :
    Nat → Nat → Nat → List Nat → RetryResult
  | 0, _, attempts, sleeps => ⟨false, attempts, sleeps.reverse⟩
  | n + 1, waitTime, attempts, sleeps =>
    if operation attempts then ⟨true, attempts + 1, sleeps.reverse⟩
    else
      retryGo operation increment n (waitTime + increment) (attempts + 1)
        ((waitTime + increment) :: sleeps)

/-- Embedding of `FlowFileRepository::ExecuteWithRetry`: up to 3 attempts, returning true
on the first success; after each failure `waitTime` grows by the fixed
increment `FLOWFILE_REPOSITORY_RETRY_INTERVAL_INCREMENTS` (a header constant
not in the given sources, hence a parameter) and the thread sleeps for the
accumulated `waitTime`. -/
def ExecuteWithRetry (operation : Nat → Bool) (increment : Nat) : RetryResult :=
  retryGo operation increment 3 0 0 []

/-- The per-key `MultiGet` outcome inside `flush`: `none` when the status is
not ok (key absent, or an injected read fault), otherwise the stored bytes. -/
def flushReadOf (store : List (String × Bytes)) (readFault : String → Bool)
    (k : String) : Option Bytes :=
  if readFault k then none else List.lookup k store

/-- The keys surviving the read loop of `flush`. In the code this list arises
twice in the same form: `keystrings` starts as the drained keys and each key
whose read failed is dropped by `keystrings.remove` (which erases every copy
of that key, and a key's read status is the same at every occurrence), and
`batch` receives `batch.Delete(keys[i])` for exactly the keys whose read was
ok, in order. Both therefore equal the drained keys filtered to ok reads. -/
def flushKeystrings (store : List (String × Bytes)) (readFault : String → Bool)
    (keys : List String) : List String :=
  keys.filter (fun k => (flushReadOf store readFault k).isSome)

/-- The `purgeList` built by `flush`: the records of the keys whose read was ok
and whose bytes deserialize. -/
def flushPurgeList (store : List (String × Bytes)) (readFault : String → Bool)
    (deser : Bytes → Option FlowFileRecord) (keys : List String) :
    List FlowFileRecord :=
  keys.filterMap (fun k => (flushReadOf store readFault k).bind deser)

/-- Committing the write batch: every key with a `batch.Delete` entry is
removed from the store as one atomic unit. -/
def applyBatchDelete (store : List (String × Bytes)) (batch : List String) :
    List (String × Bytes) :=
  store.filter (fun kv => !(batch.contains kv.1))

/-- Embedding of `FlowFileRepository::flush`. Drains the whole delete queue, multi-gets
the drained keys, drops keys whose read failed, batches a delete of the
surviving keys (deserialization failure does not exempt a key from the
batch), runs the batched write through `ExecuteWithRetry`; on failure it
re-enqueues the surviving keys and returns without touching the content
repository, on success it calls `removeIfOrphaned` for each deserialized
record's claim (when the content repository pointer is non-null). -/
def flush (deser : Bytes → Option FlowFileRecord) (readFault : String → Bool)
    (content_repo_present : Bool) (writeAttempts : Nat → Bool)
    (increment : Nat) (s : RepoState) : RepoState :=
  let keys := s.keys_to_delete
  let keystrings := flushKeystrings s.store readFault keys
  let purgeList := flushPurgeList s.store readFault deser keys
  if (ExecuteWithRetry writeAttempts increment).success then
    { s with
      store := applyBatchDelete s.store keystrings
      keys_to_delete := []
      contentCalls := s.contentCalls ++
        (if content_repo_present then
          purgeList.filterMap (fun r => r.claim.map ContentCall.removeIfOrphaned)
        else []) }
  else
    { s with keys_to_delete := keystrings }

/-- What `prune_stored_flowfiles` does with one iterated `(key, value)` pair:
the keys it enqueues for deletion, the content calls it makes, and the
deliveries it performs, in that record's handling. When deserialization
succeeds and the connection map resolves the record's connection uuid (and
`corrupt_checkpoint` is false), the record is marked stored-to-repository and
put into that connection; otherwise the claim is removed from the content
repository (when the content path is non-empty and the claim is non-null)
and the key enqueued; a record that fails to deserialize only has its key
enqueued. -/
def pruneRecordOut (deser : Bytes → Option FlowFileRecord)
    (connectionMap : List String) (corrupt_checkpoint : Bool)
    (kv : String × Bytes) :
    List String × List ContentCall × List Delivery :=
  match deser kv.2 with
  | some r =>
    if corrupt_checkpoint = false ∧ r.connectionUuid ∈ connectionMap then
      ([], [], [⟨kv.1, r.connectionUuid, setStoredToRepository r true⟩])
    else
      ([kv.1],
        (if 0 < (getContentFullPath r).length then
          match r.claim with
          | some c => [ContentCall.remove c]
          | none => []
        else []),
        [])
  | none => ([kv.1], [], [])

/-- The environment of the recovery pass: whether the `checkpoint_` object
exists, whether `OpenForReadOnly` on the checkpoint directory succeeds, the
checkpoint's contents when it opens, and the uuids registered in
`connectionMap`. -/
structure PruneInput where
  checkpoint_exists : Bool
  checkpoint_open_ok : Bool
  checkpoint_contents : List (String × Bytes)
  connectionMap : List String

/-- Embedding of `FlowFileRepository::prune_stored_flowfiles`. Returns unchanged when no
checkpoint object exists. Otherwise it iterates the checkpoint contents, or
the live store when `OpenForReadOnly` failed. Note, exactly as in the source:
`corrupt_checkpoint` is initialized to false and never assigned afterwards —
the open-failure branch only redirects `stored_database_` to the live `db_`
— so the `!corrupt_checkpoint` test before delivery is always true. The pass
never writes the store; it only appends to the delete queue, the content-call
trace and the delivery trace. -/
def prune_stored_flowfiles (deser : Bytes → Option FlowFileRecord)
    (inp : PruneInput) (s : RepoState) : RepoState :=
  if inp.checkpoint_exists then
    let corrupt_checkpoint := false
    let contents :=
      if inp.checkpoint_open_ok then inp.checkpoint_contents else s.store
    let outs := contents.map
      (pruneRecordOut deser inp.connectionMap corrupt_checkpoint)
    { s with
      keys_to_delete := s.keys_to_delete ++ outs.flatMap (fun o => o.1)
      contentCalls := s.contentCalls ++ outs.flatMap (fun o => o.2.1)
      deliveries := s.deliveries ++ outs.flatMap (fun o => o.2.2) }
  else s

/-- Embedding of `FlowFileRepository::need_checkpoint`: seek the live store's iterator to
the first entry and report whether it is valid — true exactly when the store
holds at least one record. -/
def need_checkpoint (store : List (String × Bytes)) : Bool :=
  match store with
  | [] => false
  | _ :: _ => true

/-- The filesystem and rocksdb actions `initialize_repository` performs, in
order: deleting the previous checkpoint directory, creating the
`rocksdb::Checkpoint` object, and taking the snapshot into the directory. -/
inductive InitAction where
  | deleteCheckpointDir
  | checkpointObjectCreate
  | createCheckpointSnapshot
deriving DecidableEq

/-- Success or failure of each external step of `initialize_repository`. -/
structure InitInput where
  delete_dir_ok : Bool
  checkpoint_object_ok : Bool
  create_snapshot_ok : Bool

/-- Result of `initialize_repository`: the actions performed in order, and
the checkpoint (`checkpoint_` plus the snapshot contents as of creation)
when every step succeeded. -/
structure InitResult where
  actions : List InitAction
  checkpoint : Option (List (String × Bytes))
deriving DecidableEq

/-- Embedding of `FlowFileRepository::initialize_repository`: nothing happens when
`need_checkpoint` is false; otherwise `delete_dir` runs first, and only if it
succeeds does `rocksdb::Checkpoint::Create` run, and only if that succeeds
does `CreateCheckpoint` take the snapshot; `checkpoint_` is set only when all
three succeed, and the snapshot reflects the store as of this call. -/
def initialize_repository (inp : InitInput) (store : List (String × Bytes)) :
    InitResult :=
  if need_checkpoint store = false then ⟨[], none⟩
  else if inp.delete_dir_ok = false then ⟨[.deleteCheckpointDir], none⟩
  else if inp.checkpoint_object_ok = false then
    ⟨[.deleteCheckpointDir, .checkpointObjectCreate], none⟩
  else if inp.create_snapshot_ok = false then
    ⟨[.deleteCheckpointDir, .checkpointObjectCreate, .createCheckpointSnapshot],
      none⟩
  else
    ⟨[.deleteCheckpointDir, .checkpointObjectCreate, .createCheckpointSnapshot],
      some store⟩

/-! Concrete fixtures used to evaluate the model on closed inputs. -/

/-- Fixture claim A. -/
def claimA : ResourceClaim := ⟨"/content/a"⟩

/-- Fixture claim B. -/
def claimB : ResourceClaim := ⟨"/content/b"⟩

/-- Fixture record A, owned by connection connA, holding claim A. -/
def recA : FlowFileRecord := ⟨"uuid-a", "connA", some claimA, false⟩

/-- Fixture record B, owned by connection connB, holding claim B. -/
def recB : FlowFileRecord := ⟨"uuid-b", "connB", some claimB, false⟩

/-- Fixture deserializer: bytes [1] decode to record A, [2] to record B,
anything else fails to deserialize. -/
def demoDeser : Bytes → Option FlowFileRecord := fun b =>
  if b = [1] then some recA
  else if b = [2] then some recB
  else none

/-- Fixture store: k1 and k2 hold valid records, k3 holds corrupt bytes. -/
def exStore : List (String × Bytes) := [("k1", [1]), ("k2", [2]), ("k3", [0])]

/-- Fixture repository state with k1 pending deletion. -/
def exState : RepoState := ⟨exStore, ["k1"], [], []⟩

/-- A read-fault injection that never fires. -/
def noFault : String → Bool := fun _ => false

/-- A read-fault injection that fails every read of key k2. -/
def faultK2 : String → Bool := fun k => k == "k2"

/-- Store operation outcomes: every attempt succeeds. -/
def allOk : Nat → Bool := fun _ => true

/-- Store operation outcomes: every attempt fails. -/
def allFail : Nat → Bool := fun _ => false

/-- Fixture state with nothing pending and an empty store. -/
def emptyState : RepoState := ⟨[], [], [], []⟩

/-- Fixture recovery environment: checkpoint exists and opens, holding k1
(record A, connection connA registered) and k2 (record B, connection connB
not registered). -/
def recoverInput : PruneInput :=
  ⟨true, true, [("k1", [1]), ("k2", [2])], ["connA"]⟩

/-- Fixture for the checkpoint-open-failure pass: the checkpoint object
exists but OpenForReadOnly fails, so the pass falls back to the live store. -/
def c2Input : PruneInput := ⟨true, false, [], ["connA"]⟩

/-- Fixture live store for the fallback pass: k1 holds a valid record whose
connection connA is registered. -/
def c2State : RepoState := ⟨[("k1", [1])], [], [], []⟩

/-- C8: ExecuteWithRetry runs the supplied operation at most 3 times,
returns success immediately after the first attempt that succeeds with no
further attempts, waits between attempts an amount growing by the fixed
increment per attempt (the n-th sleep is (n+1) times the increment), and
returns failure after 3 failed attempts. -/
theorem C8_retry_policy (operation : Nat → Bool) (increment : Nat) :
    (ExecuteWithRetry operation increment).attempts ≤ 3 ∧
    (∀ j, j < 3 → operation j = true → (∀ i, i < j → operation i = false) →
      (ExecuteWithRetry operation increment).success = true ∧
      (ExecuteWithRetry operation increment).attempts = j + 1) ∧
    ((∀ i, i < 3 → operation i = false) →
      (ExecuteWithRetry operation increment).success = false ∧
      (ExecuteWithRetry operation increment).attempts = 3) ∧
    (∀ n, ∀ hn : n < (ExecuteWithRetry operation increment).sleeps.length,
      (ExecuteWithRetry operation increment).sleeps.get ⟨n, hn⟩ =
        (n + 1) * increment) := by
  refine ⟨?_, ?_, ?_, ?_⟩
  · cases h0 : operation 0 <;> cases h1 : operation 1 <;> cases h2 : operation 2 <;>
      simp [ExecuteWithRetry, retryGo, h0, h1, h2]
  · intro j hj hop hprev
    interval_cases j
    · simp [ExecuteWithRetry, retryGo, hop]
    · have h0 := hprev 0 (by omega)
      simp [ExecuteWithRetry, retryGo, h0, hop]
    · have h0 := hprev 0 (by omega)
      have h1 := hprev 1 (by omega)
      simp [ExecuteWithRetry, retryGo, h0, h1, hop]
  · intro hall
    have h0 := hall 0 (by omega)
    have h1 := hall 1 (by omega)
    have h2 := hall 2 (by omega)
    simp [ExecuteWithRetry, retryGo, h0, h1, h2]
  · intro n hn
    cases h0 : operation 0 <;> cases h1 : operation 1 <;> cases h2 : operation 2 <;>
        simp [ExecuteWithRetry, retryGo, h0, h1, h2] at hn ⊢ <;>
      first
        | (subst hn; simp)
        | (interval_cases n <;> simp <;> try ring)

/-- Witness for C8 at a concrete operation that fails once then succeeds:
two attempts, final success. -/
theorem C8_retry_policy_witness :
    (ExecuteWithRetry (fun i => decide (0 < i)) 5).success = true ∧
    (ExecuteWithRetry (fun i => decide (0 < i)) 5).attempts = 2 :=
  (C8_retry_policy (fun i => decide (0 < i)) 5).2.1 1 (by decide) (by decide)
    (by decide)

/-- Applying an empty write batch leaves the store unchanged. -/
theorem applyBatchDelete_nil (store : List (String × Bytes)) :
    applyBatchDelete store [] = store := by
  simp [applyBatchDelete]

/-- C7: at initialization a checkpoint is attempted if and only if the live
store holds at least one record (the single-item probe need_checkpoint);
whenever the fresh snapshot is created, the previous checkpoint directory
was deleted first (the action list puts deleteCheckpointDir before
createCheckpointSnapshot); and when no checkpoint object exists at recovery
time, the recovery pass returns the state unchanged. -/
theorem C7_checkpoint_lifecycle (inp : InitInput) (store : List (String × Bytes))
    (deser : Bytes → Option FlowFileRecord) (pinp : PruneInput) (s : RepoState) :
    ((initialize_repository inp store).actions ≠ [] ↔ store ≠ []) ∧
    (need_checkpoint store = true ↔ store ≠ []) ∧
    (InitAction.createCheckpointSnapshot ∈ (initialize_repository inp store).actions →
      (initialize_repository inp store).actions =
        [.deleteCheckpointDir, .checkpointObjectCreate, .createCheckpointSnapshot]) ∧
    (pinp.checkpoint_exists = false → prune_stored_flowfiles deser pinp s = s) := by
  refine ⟨?_, ?_, ?_, ?_⟩
  · cases store with
    | nil => simp [initialize_repository, need_checkpoint]
    | cons kv rest =>
      rcases inp with ⟨d, c, n⟩
      cases d <;> cases c <;> cases n <;>
        simp [initialize_repository, need_checkpoint]
  · cases store <;> simp [need_checkpoint]
  · intro hmem
    cases store <;>
        rcases inp with ⟨d, c, n⟩ <;> cases d <;> cases c <;> cases n <;>
      simp_all [initialize_repository, need_checkpoint]
  · intro hne
    simp [prune_stored_flowfiles, hne]

/-- Witness for C7 on concrete inputs: a missing checkpoint object makes the
pass a no-op, and a successful initialization over a non-empty store performs
delete-directory, checkpoint-object creation and snapshot in that order. -/
theorem C7_checkpoint_lifecycle_witness :
    prune_stored_flowfiles demoDeser ⟨false, true, [], []⟩ exState = exState ∧
    (initialize_repository ⟨true, true, true⟩ exStore).actions =
      [.deleteCheckpointDir, .checkpointObjectCreate, .createCheckpointSnapshot] :=
  ⟨(C7_checkpoint_lifecycle ⟨true, true, true⟩ exStore demoDeser
      ⟨false, true, [], []⟩ exState).2.2.2 rfl,
    (C7_checkpoint_lifecycle ⟨true, true, true⟩ exStore demoDeser
      ⟨false, true, [], []⟩ exState).2.2.1 (by decide)⟩

/-- C9: flushing with an empty delete queue changes nothing: no store
mutation, no content-repository call, and the queue is still empty when
flush returns (the whole state is returned unchanged). -/
theorem C9_flush_empty_queue_noop (deser : Bytes → Option FlowFileRecord)
    (readFault : String → Bool) (crp : Bool) (writeAttempts : Nat → Bool)
    (increment : Nat) (s : RepoState) (h : s.keys_to_delete = []) :
    flush deser readFault crp writeAttempts increment s = s := by
  rcases s with ⟨store, ktd, calls, deliv⟩
  obtain rfl : ktd = [] := h
  simp [flush, flushKeystrings, flushPurgeList, applyBatchDelete_nil]

/-- Witness for C9: a concrete state with an empty delete queue is returned
unchanged by flush. -/
theorem C9_flush_empty_queue_noop_witness :
    flush demoDeser noFault true allOk 1 ⟨exStore, [], [], []⟩ =
      ⟨exStore, [], [], []⟩ :=
  C9_flush_empty_queue_noop demoDeser noFault true allOk 1
    ⟨exStore, [], [], []⟩ rfl

/-- C10: the recovery pass never removes or writes a store key: the store
component is returned exactly as it was, and the only state changes are
appends — keys enqueued into the delete queue, content-repository calls, and
deliveries into connections; a key it schedules can therefore only leave the
store through a later flush cycle's batched delete. -/
theorem C10_recovery_pass_store_frame (deser : Bytes → Option FlowFileRecord)
    (inp : PruneInput) (s : RepoState) :
    (prune_stored_flowfiles deser inp s).store = s.store ∧
    ∃ addedKeys addedCalls addedDeliveries,
      (prune_stored_flowfiles deser inp s).keys_to_delete =
        s.keys_to_delete ++ addedKeys ∧
      (prune_stored_flowfiles deser inp s).contentCalls =
        s.contentCalls ++ addedCalls ∧
      (prune_stored_flowfiles deser inp s).deliveries =
        s.deliveries ++ addedDeliveries := by
  cases hex : inp.checkpoint_exists
  · exact ⟨by simp [prune_stored_flowfiles, hex], [], [], [],
      by simp [prune_stored_flowfiles, hex]⟩
  · unfold prune_stored_flowfiles
    rw [hex]
    exact ⟨rfl, _, _, _, rfl, rfl, rfl⟩

/-- Members of the purge list are records deserialized from a key whose read
succeeded, and that key is in the surviving batch. -/
theorem mem_flushPurgeList {store : List (String × Bytes)}
    {readFault : String → Bool} {deser : Bytes → Option FlowFileRecord}
    {keys : List String} {r : FlowFileRecord}
    (h : r ∈ flushPurgeList store readFault deser keys) :
    ∃ k, k ∈ flushKeystrings store readFault keys ∧
      ∃ b, flushReadOf store readFault k = some b ∧ deser b = some r := by
  rcases List.mem_filterMap.mp h with ⟨k, hk, hbind⟩
  rcases Option.bind_eq_some.mp hbind with ⟨b, hb, hdes⟩
  exact ⟨k, List.mem_filter.mpr ⟨hk, by simp [hb]⟩, b, hb, hdes⟩

/-- C1: flush makes no content-repository release unless the batched delete
of this cycle succeeded: when the batched write fails after retries the
content-call trace is unchanged, and every call present after flush either
predates the call or is a removeIfOrphaned for the claim of a record whose
key was part of the committed batch, under a successful batched delete. -/
theorem C1_flush_release_only_after_commit (deser : Bytes → Option FlowFileRecord)
    (readFault : String → Bool) (crp : Bool) (writeAttempts : Nat → Bool)
    (increment : Nat) (s : RepoState) :
    ((ExecuteWithRetry writeAttempts increment).success = false →
      (flush deser readFault crp writeAttempts increment s).contentCalls =
        s.contentCalls) ∧
    (∀ call ∈ (flush deser readFault crp writeAttempts increment s).contentCalls,
      call ∈ s.contentCalls ∨
        ((ExecuteWithRetry writeAttempts increment).success = true ∧
          ∃ k b r cl,
            k ∈ flushKeystrings s.store readFault s.keys_to_delete ∧
            flushReadOf s.store readFault k = some b ∧ deser b = some r ∧
            r.claim = some cl ∧ call = ContentCall.removeIfOrphaned cl)) := by
  constructor
  · intro hfail
    simp [flush, hfail]
  · intro call hcall
    cases hW : (ExecuteWithRetry writeAttempts increment).success with
    | false =>
      simp only [flush, hW, Bool.false_eq_true, if_false] at hcall
      exact Or.inl hcall
    | true =>
      simp only [flush, hW, if_true] at hcall
      rcases List.mem_append.mp hcall with h | h
      · exact Or.inl h
      · right
        refine ⟨rfl, ?_⟩
        cases crp with
        | false => simp at h
        | true =>
          simp only [if_true] at h
          rcases List.mem_filterMap.mp h with ⟨r, hr, hmap⟩
          rcases Option.map_eq_some'.mp hmap with ⟨cl, hcl, hcall_eq⟩
          rcases mem_flushPurgeList hr with ⟨k, hkmem, b, hb, hdes⟩
          exact ⟨k, b, r, cl, hkmem, hb, hdes, hcl, hcall_eq.symm⟩

/-- Witness for C1: under an always-failing store the content trace is
unchanged, and under a successful batch the one release made is accounted
for by the committed key k1. -/
theorem C1_flush_release_only_after_commit_witness :
    (flush demoDeser noFault true allFail 1 exState).contentCalls =
      exState.contentCalls ∧
    (ContentCall.removeIfOrphaned claimA ∈ exState.contentCalls ∨
      ((ExecuteWithRetry allOk 1).success = true ∧
        ∃ k b r cl,
          k ∈ flushKeystrings exState.store noFault exState.keys_to_delete ∧
          flushReadOf exState.store noFault k = some b ∧ demoDeser b = some r ∧
          r.claim = some cl ∧
          ContentCall.removeIfOrphaned claimA = ContentCall.removeIfOrphaned cl)) :=
  ⟨(C1_flush_release_only_after_commit demoDeser noFault true allFail 1 exState).1
      (by decide),
    (C1_flush_release_only_after_commit demoDeser noFault true allOk 1 exState).2
      (ContentCall.removeIfOrphaned claimA) (by decide)⟩

/-- C3: when the batched delete fails after exhausting retries, the delete
queue on return holds exactly the drained keys minus those whose read
failed (so every such key is present again), and flush does no further work:
store, content-call trace and deliveries are untouched. -/
theorem C3_flush_failed_batch_requeues (deser : Bytes → Option FlowFileRecord)
    (readFault : String → Bool) (crp : Bool) (writeAttempts : Nat → Bool)
    (increment : Nat) (s : RepoState)
    (hfail : (ExecuteWithRetry writeAttempts increment).success = false) :
    (flush deser readFault crp writeAttempts increment s).keys_to_delete =
      flushKeystrings s.store readFault s.keys_to_delete ∧
    (∀ k ∈ s.keys_to_delete, (flushReadOf s.store readFault k).isSome = true →
      k ∈ (flush deser readFault crp writeAttempts increment s).keys_to_delete) ∧
    (flush deser readFault crp writeAttempts increment s).store = s.store ∧
    (flush deser readFault crp writeAttempts increment s).contentCalls =
      s.contentCalls ∧
    (flush deser readFault crp writeAttempts increment s).deliveries =
      s.deliveries := by
  have hq : flush deser readFault crp writeAttempts increment s =
      { s with keys_to_delete := flushKeystrings s.store readFault s.keys_to_delete } := by
    simp [flush, hfail]
  rw [hq]
  refine ⟨rfl, ?_, rfl, rfl, rfl⟩
  intro k hk hsome
  exact List.mem_filter.mpr ⟨hk, hsome⟩

/-- Witness for C3 on an always-failing batched delete over the fixture
state: the one drained key k1 (whose read succeeds) is back in the queue and
nothing else changed. -/
theorem C3_flush_failed_batch_requeues_witness :
    (flush demoDeser noFault true allFail 1 exState).keys_to_delete =
      flushKeystrings exState.store noFault exState.keys_to_delete ∧
    "k1" ∈ (flush demoDeser noFault true allFail 1 exState).keys_to_delete ∧
    (flush demoDeser noFault true allFail 1 exState).store = exState.store :=
  ⟨(C3_flush_failed_batch_requeues demoDeser noFault true allFail 1 exState
      (by decide)).1,
    (C3_flush_failed_batch_requeues demoDeser noFault true allFail 1 exState
      (by decide)).2.1 "k1" (by decide) (by decide),
    (C3_flush_failed_batch_requeues demoDeser noFault true allFail 1 exState
      (by decide)).2.2.1⟩

/-- C5: a drained key whose multi-get read fails is excluded from the batched
delete, is never re-enqueued (even when the batched delete fails), keeps its
store entry (if any) intact, and contributes nothing at all to the cycle:
flushing a queue containing it gives the same result as flushing the queue
without it. -/
theorem C5_failed_read_key_abandoned (deser : Bytes → Option FlowFileRecord)
    (readFault : String → Bool) (crp : Bool) (writeAttempts : Nat → Bool)
    (increment : Nat) (s : RepoState) (k : String)
    (hfail : flushReadOf s.store readFault k = none) :
    k ∉ flushKeystrings s.store readFault s.keys_to_delete ∧
    k ∉ (flush deser readFault crp writeAttempts increment s).keys_to_delete ∧
    (∀ v, (k, v) ∈ s.store →
      (k, v) ∈ (flush deser readFault crp writeAttempts increment s).store) ∧
    (∀ l₁ l₂ : List String,
      flush deser readFault crp writeAttempts increment
          { s with keys_to_delete := l₁ ++ k :: l₂ } =
        flush deser readFault crp writeAttempts increment
          { s with keys_to_delete := l₁ ++ l₂ }) := by
  have hnotmem : ∀ keys : List String,
      k ∉ flushKeystrings s.store readFault keys := by
    intro keys hmem
    have := (List.mem_filter.mp hmem).2
    simp [hfail] at this
  refine ⟨hnotmem _, ?_, ?_, ?_⟩
  · cases hW : (ExecuteWithRetry writeAttempts increment).success with
    | false =>
      simp only [flush, hW, Bool.false_eq_true, if_false]
      exact hnotmem _
    | true => simp [flush, hW]
  · intro v hv
    cases hW : (ExecuteWithRetry writeAttempts increment).success with
    | false => simpa [flush, hW] using hv
    | true =>
      simp only [flush, hW, if_true]
      refine List.mem_filter.mpr ⟨hv, ?_⟩
      simpa using hnotmem s.keys_to_delete
  · intro l₁ l₂
    have hK : flushKeystrings s.store readFault (l₁ ++ k :: l₂) =
        flushKeystrings s.store readFault (l₁ ++ l₂) := by
      simp [flushKeystrings, List.filter_append, hfail]
    have hP : flushPurgeList s.store readFault deser (l₁ ++ k :: l₂) =
        flushPurgeList s.store readFault deser (l₁ ++ l₂) := by
      simp [flushPurgeList, List.filterMap_append, hfail]
    simp only [flush, hK, hP]

/-- Witness for C5 at the concrete key k2, present in the fixture store but
with an injected read fault: it is not batched, not re-enqueued by the
failing cycle, its store entry survives, and the cycle with k2 queued equals
the cycle without it. -/
theorem C5_failed_read_key_abandoned_witness :
    "k2" ∉ flushKeystrings exState.store faultK2 exState.keys_to_delete ∧
    "k2" ∉ (flush demoDeser faultK2 true allFail 1 exState).keys_to_delete ∧
    ("k2", [2]) ∈ (flush demoDeser faultK2 true allFail 1 exState).store ∧
    flush demoDeser faultK2 true allFail 1
        { exState with keys_to_delete := [] ++ "k2" :: ["k1"] } =
      flush demoDeser faultK2 true allFail 1
        { exState with keys_to_delete := [] ++ ["k1"] } :=
  ⟨(C5_failed_read_key_abandoned demoDeser faultK2 true allFail 1 exState "k2"
      (by decide)).1,
    (C5_failed_read_key_abandoned demoDeser faultK2 true allFail 1 exState "k2"
      (by decide)).2.1,
    (C5_failed_read_key_abandoned demoDeser faultK2 true allFail 1 exState "k2"
      (by decide)).2.2.1 [2] (by decide),
    (C5_failed_read_key_abandoned demoDeser faultK2 true allFail 1 exState "k2"
      (by decide)).2.2.2 [] ["k1"]⟩

/-- Every key the per-record recovery step schedules for deletion is that
record's own key. -/
theorem pruneRecordOut_keys {deser : Bytes → Option FlowFileRecord}
    {cm : List String} {cor : Bool} {kv : String × Bytes} {k' : String}
    (h : k' ∈ (pruneRecordOut deser cm cor kv).1) : k' = kv.1 := by
  rcases hdes : deser kv.2 with _ | r
  · simp [pruneRecordOut, hdes] at h
    exact h
  · by_cases hcond : cor = false ∧ r.connectionUuid ∈ cm
    · simp [pruneRecordOut, hdes, hcond] at h
    · simp [pruneRecordOut, hdes, hcond] at h
      exact h

/-- Every delivery the per-record recovery step performs carries that
record's key, comes from a successful deserialization whose connection
resolved with the pass unflagged, and is marked stored-to-repository. -/
theorem pruneRecordOut_deliveries {deser : Bytes → Option FlowFileRecord}
    {cm : List String} {cor : Bool} {kv : String × Bytes} {d : Delivery}
    (h : d ∈ (pruneRecordOut deser cm cor kv).2.2) :
    ∃ r, deser kv.2 = some r ∧ cor = false ∧ r.connectionUuid ∈ cm ∧
      d = ⟨kv.1, r.connectionUuid, setStoredToRepository r true⟩ := by
  rcases hdes : deser kv.2 with _ | r
  · simp [pruneRecordOut, hdes] at h
  · by_cases hcond : cor = false ∧ r.connectionUuid ∈ cm
    · have hout : pruneRecordOut deser cm cor kv =
          ([], [], [⟨kv.1, r.connectionUuid, setStoredToRepository r true⟩]) := by
        simp [pruneRecordOut, hdes, hcond]
      rw [hout] at h
      exact ⟨r, rfl, hcond.1, hcond.2, List.mem_singleton.mp h⟩
    · simp [pruneRecordOut, hdes, hcond] at h

/-- In a list of keyed pairs whose keys are pairwise distinct, a key
determines its value. -/
theorem nodup_keys_value_unique {α β : Type} {l : List (α × β)}
    (h : (l.map Prod.fst).Nodup) {k : α} {b b' : β}
    (h1 : (k, b) ∈ l) (h2 : (k, b') ∈ l) : b = b' := by
  induction l with
  | nil => cases h1
  | cons x xs ih =>
    rw [List.map_cons, List.nodup_cons] at h
    rcases List.mem_cons.mp h1 with h1e | h1m
    · rcases List.mem_cons.mp h2 with h2e | h2m
      · rw [← h1e] at h2e
        simpa using h2e.symm
      · exfalso
        rw [← h1e] at h
        exact h.1 (List.mem_map.mpr ⟨(k, b'), h2m, rfl⟩)
    · rcases List.mem_cons.mp h2 with h2e | h2m
      · exfalso
        rw [← h2e] at h
        exact h.1 (List.mem_map.mpr ⟨(k, b), h1m, rfl⟩)
      · exact ih h.2 h1m h2m

/-- The recovery pass over an existing, opening checkpoint, written as its
components. -/
theorem prune_open_eq (deser : Bytes → Option FlowFileRecord)
    (inp : PruneInput) (s : RepoState)
    (hex : inp.checkpoint_exists = true) (hok : inp.checkpoint_open_ok = true) :
    prune_stored_flowfiles deser inp s =
      { s with
        keys_to_delete := s.keys_to_delete ++
          (inp.checkpoint_contents.map
            (pruneRecordOut deser inp.connectionMap false)).flatMap
              (fun o => o.1)
        contentCalls := s.contentCalls ++
          (inp.checkpoint_contents.map
            (pruneRecordOut deser inp.connectionMap false)).flatMap
              (fun o => o.2.1)
        deliveries := s.deliveries ++
          (inp.checkpoint_contents.map
            (pruneRecordOut deser inp.connectionMap false)).flatMap
              (fun o => o.2.2) } := by
  simp [prune_stored_flowfiles, hex, hok]

/-- C4: during a recovery pass over an opened checkpoint (a pass the code
never flags inconsistent), a record that deserializes and whose connection
resolves is delivered into that connection already marked durably stored and
its key is not scheduled for deletion; a record whose connection does not
resolve is never delivered, its claim (claims carry non-empty content paths)
is removed directly, and its key is enqueued for deletion. -/
theorem C4_recovery_routes_records (deser : Bytes → Option FlowFileRecord)
    (inp : PruneInput) (s : RepoState) (k : String) (b : Bytes)
    (r : FlowFileRecord)
    (hex : inp.checkpoint_exists = true) (hok : inp.checkpoint_open_ok = true)
    (hmem : (k, b) ∈ inp.checkpoint_contents) (hdes : deser b = some r) :
    (r.connectionUuid ∈ inp.connectionMap →
      (⟨k, r.connectionUuid, setStoredToRepository r true⟩ : Delivery) ∈
        (prune_stored_flowfiles deser inp s).deliveries ∧
      ((inp.checkpoint_contents.map Prod.fst).Nodup → k ∉ s.keys_to_delete →
        k ∉ (prune_stored_flowfiles deser inp s).keys_to_delete)) ∧
    (r.connectionUuid ∉ inp.connectionMap →
      k ∈ (prune_stored_flowfiles deser inp s).keys_to_delete ∧
      ((inp.checkpoint_contents.map Prod.fst).Nodup →
        ∀ d ∈ (prune_stored_flowfiles deser inp s).deliveries,
          d ∈ s.deliveries ∨ d.key ≠ k) ∧
      (∀ cl, r.claim = some cl → 0 < cl.contentFullPath.length →
        ContentCall.remove cl ∈ (prune_stored_flowfiles deser inp s).contentCalls)) := by
  rw [prune_open_eq deser inp s hex hok]
  constructor
  · intro hres
    constructor
    · refine List.mem_append_right _ (List.mem_flatMap.mpr ?_)
      refine ⟨pruneRecordOut deser inp.connectionMap false (k, b),
        List.mem_map.mpr ⟨(k, b), hmem, rfl⟩, ?_⟩
      simp [pruneRecordOut, hdes, hres]
    · intro hnodup hks hmem'
      rcases List.mem_append.mp hmem' with h | h
      · exact hks h
      · rcases List.mem_flatMap.mp h with ⟨o, ho, hko⟩
        rcases List.mem_map.mp ho with ⟨⟨k2, b2⟩, hkv, rfl⟩
        have hk2 : k2 = k := (pruneRecordOut_keys hko).symm
        subst hk2
        have hb2 : b2 = b := nodup_keys_value_unique hnodup hkv hmem
        subst hb2
        simp [pruneRecordOut, hdes, hres] at hko
  · intro hnres
    refine ⟨?_, ?_, ?_⟩
    · refine List.mem_append_right _ (List.mem_flatMap.mpr ?_)
      refine ⟨pruneRecordOut deser inp.connectionMap false (k, b),
        List.mem_map.mpr ⟨(k, b), hmem, rfl⟩, ?_⟩
      simp [pruneRecordOut, hdes, hnres]
    · intro hnodup d hd
      rcases List.mem_append.mp hd with h | h
      · exact Or.inl h
      · right
        rcases List.mem_flatMap.mp h with ⟨o, ho, hdo⟩
        rcases List.mem_map.mp ho with ⟨⟨k2, b2⟩, hkv, rfl⟩
        rcases pruneRecordOut_deliveries hdo with ⟨r', hdes', _, hres', hdval⟩
        intro hdk
        have hk2 : k2 = k := by
          have := congrArg Delivery.key hdval
          rw [hdk] at this
          exact this.symm
        subst hk2
        have hb2 : b2 = b := nodup_keys_value_unique hnodup hkv hmem
        subst hb2
        rw [hdes] at hdes'
        have hrr : r' = r := by injection hdes' with h; exact h.symm
        rw [hrr] at hres'
        exact hnres hres'
    · intro cl hcl hlen
      refine List.mem_append_right _ (List.mem_flatMap.mpr ?_)
      refine ⟨pruneRecordOut deser inp.connectionMap false (k, b),
        List.mem_map.mpr ⟨(k, b), hmem, rfl⟩, ?_⟩
      simp [pruneRecordOut, hdes, hnres, getContentFullPath, hcl, hlen]

/-- Witness for C4 on the two-record fixture checkpoint: k1 is delivered to
connA marked stored, while k2 is scheduled for deletion and claim B
removed. -/
theorem C4_recovery_routes_records_witness :
    (⟨"k1", "connA", setStoredToRepository recA true⟩ : Delivery) ∈
      (prune_stored_flowfiles demoDeser recoverInput emptyState).deliveries ∧
    "k2" ∈ (prune_stored_flowfiles demoDeser recoverInput emptyState).keys_to_delete ∧
    ContentCall.remove claimB ∈
      (prune_stored_flowfiles demoDeser recoverInput emptyState).contentCalls :=
  ⟨((C4_recovery_routes_records demoDeser recoverInput emptyState "k1" [1] recA
      rfl rfl (by decide) rfl).1 (by decide)).1,
    ((C4_recovery_routes_records demoDeser recoverInput emptyState "k2" [2] recB
      rfl rfl (by decide) rfl).2 (by decide)).1,
    ((C4_recovery_routes_records demoDeser recoverInput emptyState "k2" [2] recB
      rfl rfl (by decide) rfl).2 (by decide)).2.2 claimB rfl (by decide)⟩

/-- C6: a record that fails to deserialize is scheduled for deletion and
never delivered, on both paths: the per-record recovery step yields exactly
its key and nothing else; during recovery its key lands in the delete queue;
during flush a key whose read succeeded with corrupt bytes is still in the
batched delete while contributing nothing to the purge list; and flush never
delivers anything at all. -/
theorem C6_corrupt_record_deleted_never_delivered
    (deser : Bytes → Option FlowFileRecord) (readFault : String → Bool)
    (crp : Bool) (writeAttempts : Nat → Bool) (increment : Nat)
    (s : RepoState) (inp : PruneInput) (cm : List String) (cor : Bool)
    (k : String) (b : Bytes) (l₁ l₂ : List String) :
    (deser b = none → pruneRecordOut deser cm cor (k, b) = ([k], [], [])) ∧
    (inp.checkpoint_exists = true → inp.checkpoint_open_ok = true →
      (k, b) ∈ inp.checkpoint_contents → deser b = none →
      k ∈ (prune_stored_flowfiles deser inp s).keys_to_delete) ∧
    (flushReadOf s.store readFault k = some b → deser b = none →
      k ∈ flushKeystrings s.store readFault (l₁ ++ k :: l₂) ∧
      flushPurgeList s.store readFault deser (l₁ ++ k :: l₂) =
        flushPurgeList s.store readFault deser l₁ ++
          flushPurgeList s.store readFault deser l₂) ∧
    (flush deser readFault crp writeAttempts increment s).deliveries =
      s.deliveries := by
  refine ⟨?_, ?_, ?_, ?_⟩
  · intro h
    simp [pruneRecordOut, h]
  · intro hex hok hm hd
    rw [prune_open_eq deser inp s hex hok]
    refine List.mem_append_right _ (List.mem_flatMap.mpr ?_)
    refine ⟨pruneRecordOut deser inp.connectionMap false (k, b),
      List.mem_map.mpr ⟨(k, b), hm, rfl⟩, ?_⟩
    simp [pruneRecordOut, hd]
  · intro hread hd
    constructor
    · exact List.mem_filter.mpr ⟨by simp, by simp [hread]⟩
    · simp [flushPurgeList, List.filterMap_append, hread, hd]
  · cases hW : (ExecuteWithRetry writeAttempts increment).success <;>
      simp [flush, hW]

/-- Witness for C6 at the fixture's corrupt entry k3 (bytes [0] do not
deserialize): its recovery step yields only the key, recovery enqueues it,
and on the flush side it stays in the batch. -/
theorem C6_corrupt_record_deleted_never_delivered_witness :
    pruneRecordOut demoDeser ["connA"] false ("k3", [0]) = (["k3"], [], []) ∧
    "k3" ∈ (prune_stored_flowfiles demoDeser
      ⟨true, true, exStore, ["connA"]⟩ exState).keys_to_delete ∧
    "k3" ∈ flushKeystrings exState.store noFault ([] ++ "k3" :: []) :=
  ⟨(C6_corrupt_record_deleted_never_delivered demoDeser noFault true allOk 1
      exState ⟨true, true, exStore, ["connA"]⟩ ["connA"] false "k3" [0] [] []).1
      rfl,
    (C6_corrupt_record_deleted_never_delivered demoDeser noFault true allOk 1
      exState ⟨true, true, exStore, ["connA"]⟩ ["connA"] false "k3" [0] [] []).2.1
      rfl rfl (by decide) rfl,
    ((C6_corrupt_record_deleted_never_delivered demoDeser noFault true allOk 1
      exState ⟨true, true, exStore, ["connA"]⟩ ["connA"] false "k3" [0] [] []).2.2.1
      (by decide) rfl).1⟩

/-- C2, evidence of the code's divergence from the spec: in a fallback pass
(checkpoint object exists, OpenForReadOnly fails) the source never sets
corrupt_checkpoint, so a record in the live store whose connection resolves
is still delivered, with no claim released and no key scheduled for
deletion. -/
theorem C2_fallback_pass_still_delivers :
    (prune_stored_flowfiles demoDeser c2Input c2State).deliveries =
      [⟨"k1", "connA", setStoredToRepository recA true⟩] ∧
    (prune_stored_flowfiles demoDeser c2Input c2State).keys_to_delete = [] ∧
    (prune_stored_flowfiles demoDeser c2Input c2State).contentCalls = [] := by
  decide

end FlowFileRepo
